import Mathlib

/-!
Shallow embedding of the `strat-scanner` core (pattern detection, option
selection, scan-state coordination) and proofs of the spec's testable
properties against it.

Conventions of the embedding:
* Python floats are modelled as `ℚ`; dates (`datetime.date`) as `ℤ`
  (a day ordinal), so `(d2 - d1).days` becomes plain integer subtraction.
* `Optional[float]` becomes `Option ℚ`; fallible parses return `Option`.
* Mutable per-process scanner state is threaded explicitly through a
  `ScanState`/`LoopSt` record; the external data provider is a record of
  total functions (`ScanEnv`).
-/

namespace StratScanner

/-! ## models.py -/

/-- `CandleType` enum from models.py. -/
inductive CandleType where
  | INSIDE
  | TWO_UP
  | TWO_DOWN
  | OUTSIDE
deriving DecidableEq, Repr

/-- `Candle` dataclass from models.py (`open` is a Lean keyword, hence `open_`). -/
structure Candle where
  timestamp : ℤ
  open_ : ℚ
  high : ℚ
  low : ℚ
  close : ℚ
  volume : Option ℚ := none
deriving DecidableEq, Repr

/-- `StratSignal` dataclass.  The base and option fields follow models.py.
Modelled from the spec: the derived-metric fields `pct_to_entry`,
`risk_reward` and `volume_vs_avg_pct` ("optional derived metrics
(percent-to-entry, risk/reward ratio, relative volume percent)", spec §3) are
missing from the models.py version under src/, although strat_logic.py
constructs signals with them and alerts.py reads them; they are taken from the
spec's data model.  `option_expiration` (an ISO date string in the source) is
modelled as the parsed date (`Option ℤ`). -/
structure StratSignal where
  symbol : String
  direction : String
  pattern_name : String
  timeframe : String
  bias_timeframe : String
  entry_level : ℚ
  stop_level : ℚ
  target_level : Option ℚ
  underlying_price : ℚ
  pct_to_entry : Option ℚ := none
  risk_reward : Option ℚ := none
  volume_vs_avg_pct : Option ℚ := none
  option_ticker : Option String := none
  option_strike : Option ℚ := none
  option_expiration : Option ℤ := none
  option_type : Option String := none
  option_bid : Option ℚ := none
  option_ask : Option ℚ := none
  option_iv : Option ℚ := none
deriving DecidableEq, Repr

/-! ## strat_logic.py -/

def VOLUME_LOOKBACK_DAYS : ℕ := 20

/-- `_calculate_pct_to_entry` (strat_logic.py lines 12-20). -/
def _calculate_pct_to_entry (current_price entry : Option ℚ) : Option ℚ :=
  match current_price, entry with
  | none, _ => none
  | _, none => none
  | some cp, some e =>
    if e = 0 then none
    else some (((cp - e) / e) * 100)

/-- `_calculate_risk_reward` (strat_logic.py lines 23-43). -/
def _calculate_risk_reward (direction : String)
    (entry stop current_price : Option ℚ) : Option ℚ :=
  match entry, stop, current_price with
  | some e, some s, some cp =>
    let risk := |e - s|
    if risk ≤ 0 then none
    else
      let reward := if direction = "CALL" then max cp e - s else e - min cp e
      if reward ≤ 0 then none else some (reward / risk)
  | _, _, _ => none

/-- `True` when a candle's volume is missing or non-positive (the condition on
which `_calculate_volume_vs_avg_pct` bails out for a window candle). -/
def badVolume (c : Candle) : Bool :=
  match c.volume with
  | none => true
  | some v => decide (v ≤ 0)

/-- The 20 candles immediately preceding the latest bar
(`daily_candles[-(VOLUME_LOOKBACK_DAYS + 1) : -1]` for a list of length > 20). -/
def trailingWindow (daily_candles : List Candle) : List Candle :=
  (daily_candles.drop (daily_candles.length - (VOLUME_LOOKBACK_DAYS + 1))).take
    VOLUME_LOOKBACK_DAYS

/-- `_calculate_volume_vs_avg_pct` (strat_logic.py lines 46-63).  The source's
early-`return None` loop over the prior window is rendered as an `any` test
followed by `filterMap`. -/
def _calculate_volume_vs_avg_pct (daily_candles : List Candle) : Option ℚ :=
  if daily_candles.length ≤ VOLUME_LOOKBACK_DAYS then none
  else
    match daily_candles.getLast? with
    | none => none
    | some today =>
      match today.volume with
      | none => none
      | some todayVol =>
        let prior := trailingWindow daily_candles
        if prior.any badVolume then none
        else
          let volumes := prior.filterMap (fun c => c.volume)
          if volumes.length < VOLUME_LOOKBACK_DAYS then none
          else
            let avg_volume := volumes.sum / (volumes.length : ℚ)
            if avg_volume ≤ 0 then none
            else some (((todayVol - avg_volume) / avg_volume) * 100)

/-- The average volume over the trailing 20-candle window, as computed by
`_calculate_volume_vs_avg_pct` (sum of the collected volumes divided by their
count). -/
def windowAvg (daily_candles : List Candle) : ℚ :=
  let volumes := (trailingWindow daily_candles).filterMap (fun c => c.volume)
  volumes.sum / (volumes.length : ℚ)

/-- `classify_candle_type` (strat_logic.py lines 66-84). -/
def classify_candle_type (current previous : Candle) : CandleType :=
  if current.high ≤ previous.high ∧ current.low ≥ previous.low then
    CandleType.INSIDE
  else if current.high ≥ previous.high ∧ current.low ≤ previous.low then
    CandleType.OUTSIDE
  else
    let took_high := current.high > previous.high
    let took_low := current.low < previous.low
    if took_high ∧ ¬ took_low then CandleType.TWO_UP
    else if took_low ∧ ¬ took_high then CandleType.TWO_DOWN
    else CandleType.OUTSIDE

/-- `get_weekly_bias` (strat_logic.py lines 87-98). -/
def get_weekly_bias (weekly_candles : List Candle) : String :=
  match weekly_candles.getLast? with
  | none => "neutral"
  | some current =>
    if current.close > current.open_ then "up"
    else if current.close < current.open_ then "down"
    else "neutral"

/-- The CALL signal built by the bullish 1-2-2 branch
(strat_logic.py lines 144-178).  `current_price` is
`underlying_price or c2.close`: Python's `or` falls back exactly when the
supplied float is falsy, i.e. equal to `0`. -/
def bull122Signal (symbol : String) (daily_candles : List Candle)
    (c1 c2 : Candle) (underlying_price : ℚ) : StratSignal :=
  let current_price := if underlying_price = 0 then c2.close else underlying_price
  { symbol := symbol
    direction := "CALL"
    pattern_name := "Daily 1-2U continuation"
    timeframe := "1D"
    bias_timeframe := "1W"
    entry_level := c1.high
    stop_level := c1.low
    target_level := none
    underlying_price := current_price
    pct_to_entry := _calculate_pct_to_entry (some current_price) (some c1.high)
    risk_reward := _calculate_risk_reward "CALL" (some c1.high) (some c1.low) (some current_price)
    volume_vs_avg_pct := _calculate_volume_vs_avg_pct daily_candles }

/-- The PUT signal built by the bearish 1-2-2 branch (strat_logic.py lines 180-214). -/
def bear122Signal (symbol : String) (daily_candles : List Candle)
    (c1 c2 : Candle) (underlying_price : ℚ) : StratSignal :=
  let current_price := if underlying_price = 0 then c2.close else underlying_price
  { symbol := symbol
    direction := "PUT"
    pattern_name := "Daily 1-2D continuation"
    timeframe := "1D"
    bias_timeframe := "1W"
    entry_level := c1.low
    stop_level := c1.high
    target_level := none
    underlying_price := current_price
    pct_to_entry := _calculate_pct_to_entry (some current_price) (some c1.low)
    risk_reward := _calculate_risk_reward "PUT" (some c1.low) (some c1.high) (some current_price)
    volume_vs_avg_pct := _calculate_volume_vs_avg_pct daily_candles }

/-- `detect_daily_122_signals` (strat_logic.py lines 101-216).  The guard
`len(daily_candles) < 4` and the negative indices `[-1] … [-4]` are rendered by
matching on the reversed list. -/
def detect_daily_122_signals (symbol : String)
    (daily_candles weekly_candles : List Candle)
    (underlying_price : ℚ) : List StratSignal :=
  match daily_candles.reverse with
  | c2 :: c1 :: c0 :: cRef :: _ =>
    let t0_type := classify_candle_type c0 cRef
    let t1_type := classify_candle_type c1 c0
    let weekly_bias := get_weekly_bias weekly_candles
    let bull : List StratSignal :=
      if t0_type = CandleType.TWO_UP ∧ t1_type = CandleType.INSIDE ∧
          weekly_bias = "up" ∧ c2.high > c1.high then
        [bull122Signal symbol daily_candles c1 c2 underlying_price]
      else []
    let bear : List StratSignal :=
      if t0_type = CandleType.TWO_DOWN ∧ t1_type = CandleType.INSIDE ∧
          weekly_bias = "down" ∧ c2.low < c1.low then
        [bear122Signal symbol daily_candles c1 c2 underlying_price]
      else []
    bull ++ bear
  | _ => []

/-- The CALL signal built by the bullish 2-1-2 branch (strat_logic.py lines 263-298). -/
def bull212Signal (symbol : String) (daily_candles : List Candle)
    (c1 c2 : Candle) (underlying_price : ℚ) : StratSignal :=
  let current_price := if underlying_price = 0 then c2.close else underlying_price
  { symbol := symbol
    direction := "CALL"
    pattern_name := "Daily 2-1-2 continuation"
    timeframe := "1D"
    bias_timeframe := "1W"
    entry_level := c2.high
    stop_level := c1.low
    target_level := none
    underlying_price := current_price
    pct_to_entry := _calculate_pct_to_entry (some current_price) (some c2.high)
    risk_reward := _calculate_risk_reward "CALL" (some c2.high) (some c1.low) (some current_price)
    volume_vs_avg_pct := _calculate_volume_vs_avg_pct daily_candles }

/-- The PUT signal built by the bearish 2-1-2 branch (strat_logic.py lines 300-335). -/
def bear212Signal (symbol : String) (daily_candles : List Candle)
    (c1 c2 : Candle) (underlying_price : ℚ) : StratSignal :=
  let current_price := if underlying_price = 0 then c2.close else underlying_price
  { symbol := symbol
    direction := "PUT"
    pattern_name := "Daily 2-1-2 continuation"
    timeframe := "1D"
    bias_timeframe := "1W"
    entry_level := c2.low
    stop_level := c1.high
    target_level := none
    underlying_price := current_price
    pct_to_entry := _calculate_pct_to_entry (some current_price) (some c2.low)
    risk_reward := _calculate_risk_reward "PUT" (some c2.low) (some c1.high) (some current_price)
    volume_vs_avg_pct := _calculate_volume_vs_avg_pct daily_candles }

/-- `detect_daily_212_signals` (strat_logic.py lines 219-337). -/
def detect_daily_212_signals (symbol : String)
    (daily_candles weekly_candles : List Candle)
    (underlying_price : ℚ) : List StratSignal :=
  match daily_candles.reverse with
  | c2 :: c1 :: c0 :: cRef :: _ =>
    let t0_type := classify_candle_type c0 cRef
    let t1_type := classify_candle_type c1 c0
    let t2_type := classify_candle_type c2 c1
    let weekly_bias := get_weekly_bias weekly_candles
    let bull : List StratSignal :=
      if t0_type = CandleType.TWO_UP ∧ t1_type = CandleType.INSIDE ∧
          t2_type = CandleType.TWO_UP ∧ weekly_bias = "up" ∧ c2.high > c0.high then
        [bull212Signal symbol daily_candles c1 c2 underlying_price]
      else []
    let bear : List StratSignal :=
      if t0_type = CandleType.TWO_DOWN ∧ t1_type = CandleType.INSIDE ∧
          t2_type = CandleType.TWO_DOWN ∧ weekly_bias = "down" ∧ c2.low < c0.low then
        [bear212Signal symbol daily_candles c1 c2 underlying_price]
      else []
    bull ++ bear
  | _ => []

/-- `detect_daily_strat_signals` (strat_logic.py lines 340-374): the unified
entry point, concatenating the 1-2-2 and 2-1-2 recognizers. -/
def detect_daily_strat_signals (symbol : String)
    (daily_candles weekly_candles : List Candle)
    (underlying_price : ℚ) : List StratSignal :=
  detect_daily_122_signals symbol daily_candles weekly_candles underlying_price ++
    detect_daily_212_signals symbol daily_candles weekly_candles underlying_price

/-! ## options_picker.py

External facts folded into the embedding: `datetime.utcnow().date()` is the
explicit parameter `now : ℤ`; `_parse_expiration` of a raw chain value is an
`Option ℤ` field (`none` = missing or unparseable).  The source memoizes
parsed scratch fields (`_parsed_*`) onto the chain dicts; the pure embedding
re-derives them, which yields the same values. -/

/-- A numeric chain field that may be missing or non-numeric.  The source
treats a missing `bid_price`/`ask_price` as `0` (`float(bid or 0)`) but skips
the contract when the value fails to parse, so the two cases must stay
distinct. -/
inductive NumField where
  | missing
  | val (q : ℚ)
  | bad
deriving DecidableEq, Repr

/-- One raw option-chain record, with the fields options_picker.py reads.
`strike_price = none` covers both a missing and a non-numeric strike (both are
skipped identically); `open_interest = none` covers a missing or non-numeric
open interest (both coerce to `0` via `int(open_interest or 0)`). -/
structure Contract where
  contract_type : Option String
  expiration_date : Option ℤ
  strike_price : Option ℚ
  open_interest : Option ℤ
  bid_price : NumField
  ask_price : NumField
  implied_vol : Option ℚ
  symbol : Option String
deriving DecidableEq, Repr

/-- Numeric value of a bid/ask field under `float(x or 0)`; `bad` is only
consulted after the parse has been checked, so its value is immaterial. -/
def NumField.orZero : NumField → ℚ
  | .missing => 0
  | .val q => q
  | .bad => 0

/-- `int(open_interest or 0)` (options_picker.py lines 105-109). -/
def Contract.oiVal (c : Contract) : ℤ := c.open_interest.getD 0

/-- Python's `str.lower()`, as a structural map over the characters. -/
def pyLower (s : String) : String := String.mk (s.data.map Char.toLower)

/-- Contract-type filter (options_picker.py lines 51-58): skip when the type
is absent or falsy, else compare lowercased against the desired type. -/
def typeOkB (desired : String) (c : Contract) : Bool :=
  match c.contract_type with
  | none => false
  | some t => !(t == "") && (pyLower t == desired)

/-- Expiration filter (options_picker.py lines 64-75): the expiration must
parse and fall within today (inclusive) through today + 21 days. -/
def expiryOkB (now : ℤ) (c : Contract) : Bool :=
  match c.expiration_date with
  | none => false
  | some d => decide (now ≤ d) && decide (d ≤ now + 21)

/-- Primary moneyness filter (options_picker.py lines 81-97): calls need
`strike ≥ 0.97 × underlying`, puts need `strike ≤ 1.03 × underlying`. -/
def moneyOkB (desired : String) (underlying : ℚ) (c : Contract) : Bool :=
  match c.strike_price with
  | none => false
  | some s =>
    !((desired == "call") && decide (s < underlying * (97/100 : ℚ))) &&
      !((desired == "put") && decide (underlying * (103/100 : ℚ) < s))

/-- Primary liquidity/spread filter (options_picker.py lines 103-129):
open interest ≥ 50, both bid and ask parse, ask > 0, spread ≤ 0.25. -/
def liqOkB (c : Contract) : Bool :=
  decide ((50 : ℤ) ≤ c.oiVal) &&
    (match c.bid_price, c.ask_price with
     | .bad, _ => false
     | _, .bad => false
     | b, a =>
       decide (0 < a.orZero) &&
         decide ((a.orZero - b.orZero) / a.orZero ≤ (25/100 : ℚ)))

/-- All primary filters (type, expiration, moneyness, liquidity). -/
def primaryPassB (desired : String) (now : ℤ) (underlying : ℚ)
    (c : Contract) : Bool :=
  typeOkB desired c && expiryOkB now c && moneyOkB desired underlying c && liqOkB c

/-- Relaxed fallback filters (options_picker.py lines 135-181), applied to the
expiration-qualified pool: strike within ±5% of the underlying (both
directions), open interest ≥ 10, ask > 0, spread ≤ 0.35. -/
def relaxedPassB (desired : String) (now : ℤ) (underlying : ℚ)
    (c : Contract) : Bool :=
  typeOkB desired c && expiryOkB now c &&
    (match c.strike_price with
     | none => false
     | some s =>
       decide (underlying * (95/100 : ℚ) ≤ s) && decide (s ≤ underlying * (105/100 : ℚ))) &&
    decide ((10 : ℤ) ≤ c.oiVal) &&
    (match c.bid_price, c.ask_price with
     | .bad, _ => false
     | _, .bad => false
     | b, a =>
       decide (0 < a.orZero) &&
         decide ((a.orZero - b.orZero) / a.orZero ≤ (35/100 : ℚ)))

/-- Sort key (options_picker.py lines 191-196): ascending by
(days-to-expiration, |strike − entry|). -/
def contractKey (entry : ℚ) (now : ℤ) (c : Contract) : ℤ × ℚ :=
  (c.expiration_date.getD 0 - now, |c.strike_price.getD 0 - entry|)

/-- Python's stable `list.sort` on the tuple key, as a stable merge sort. -/
def sortContracts (entry : ℚ) (now : ℤ) (pool : List Contract) : List Contract :=
  pool.mergeSort fun a b =>
    decide ((contractKey entry now a).1 < (contractKey entry now b).1 ∨
      ((contractKey entry now a).1 = (contractKey entry now b).1 ∧
        (contractKey entry now a).2 ≤ (contractKey entry now b).2))

/-- Attaching the chosen contract onto the signal (options_picker.py
lines 198-210). -/
def attachOption (signal : StratSignal) (desired : String)
    (chosen : Contract) : StratSignal :=
  { signal with
    option_ticker := chosen.symbol
    option_strike := chosen.strike_price
    option_expiration := chosen.expiration_date
    option_type := some desired
    option_bid := some chosen.bid_price.orZero
    option_ask := some chosen.ask_price.orZero
    option_iv := chosen.implied_vol }

/-- The desired contract type for a signal (`"call"` for CALL, else `"put"`). -/
def desiredFor (signal : StratSignal) : String :=
  if signal.direction = "CALL" then "call" else "put"

/-- `pick_option_for_signal` (options_picker.py lines 25-226). -/
def pick_option_for_signal (signal : StratSignal)
    (options_chain : List Contract) (now : ℤ) : StratSignal :=
  if options_chain.isEmpty then signal
  else
    let desired := desiredFor signal
    let filtered := options_chain.filter (primaryPassB desired now signal.underlying_price)
    let filtered :=
      if filtered.isEmpty then
        options_chain.filter (relaxedPassB desired now signal.underlying_price)
      else filtered
    match sortContracts signal.entry_level now filtered with
    | [] => signal
    | chosen :: _ => attachOption signal desired chosen

/-! ## scanner.py

External effects folded into the embedding: the market-data client is a record
of total functions (`ScanEnv`); `datetime.now(ET).date()` is the explicit
parameter `today : ℤ`; `random.shuffle(tickers)` is absorbed into the order of
`ScanConfig.tickers` (every theorem below is quantified over that order);
`send_signal_alert` is modelled by appending the dispatched signal to
`LoopSt.alerts`, and `get_options_chain_snapshot` by appending the ticker to
`LoopSt.fetches`.  The per-instrument `try/except` is vacuous here because the
embedded environment is total. -/

/-- The external data provider, as consumed by `Scanner.scan_once`.
`daily t` is the result of `get_stock_aggs_daily(t, TIMEFRAME_DAYS_LOOKBACK)`
(the lookback is folded into the function), `weekly t` of
`get_stock_aggs_weekly(t, 12)`, `lastPrice t` of `get_last_trade_price(t)`,
and `chain t` of `get_options_chain_snapshot(t)`.  `optNow` is the UTC date
the option picker reads from its own clock. -/
structure ScanEnv where
  daily : String → List Candle
  weekly : String → List Candle
  lastPrice : String → Option ℚ
  chain : String → List Contract
  optNow : ℤ

/-- The configuration values `scan_once` consumes.  `tickers` is the parsed
`SCAN_TICKERS` list in post-shuffle order and `maxSignalsPerScan` is
`MAX_SIGNALS_PER_SCAN` (config.py lines 32-41).
Modelled from the spec: `cooldownDays` is `ALERT_COOLDOWN_DAYS`, the
"cooldown length in days" configuration value (spec §6) read at scanner.py
line 51; the config.py version under src/ does not define that `Settings`
field. -/
structure ScanConfig where
  tickers : List String
  maxSignalsPerScan : ℤ
  cooldownDays : ℤ

/-- The process-lifetime scanner state (`Scanner.__init__`, scanner.py
lines 26-28): the day-scoped seen-signal keys, the date they are scoped to,
and the per-symbol last-alert dates (an association list with most recent
binding first, matching dict assignment). -/
structure ScanState where
  seenSignals : List String
  currentSeenDate : Option ℤ
  symbolLastAlertDate : List (String × ℤ)
deriving DecidableEq, Repr

/-- The locals threaded through one scan cycle, plus the day-scoped state. -/
structure LoopSt where
  seen : List String
  lastAlert : List (String × ℤ)
  symbolsThisScan : List String
  alerted : ℕ
  alerts : List StratSignal
  fetches : List String
deriving DecidableEq, Repr

/-- `Scanner._signal_key` (scanner.py lines 33-37). -/
def sigKey (signal : StratSignal) (today : ℤ) : String :=
  signal.symbol ++ ":" ++ signal.pattern_name ++ ":" ++ signal.direction ++ ":" ++
    toString signal.entry_level ++ ":" ++ toString today

/-- The cooldown gate (scanner.py lines 138-153): blocked when cooldown is
positive, the symbol has a last-alert date, and fewer than `cooldownDays` days
have elapsed. -/
def cooldownBlocked (cooldownDays : ℤ) (today : ℤ)
    (lastAlert : List (String × ℤ)) (symbol : String) : Bool :=
  decide (0 < cooldownDays) &&
    (match lastAlert.lookup symbol with
     | some lastDate => decide (today - lastDate < cooldownDays)
     | none => false)

/-- The per-signal gate/dispatch loop (scanner.py lines 118-175). -/
def runSignals (cfg : ScanConfig) (env : ScanEnv) (today : ℤ) (ticker : String) :
    List StratSignal → LoopSt → LoopSt
  | [], ls => ls
  | signal :: rest, ls =>
    if (ls.alerted : ℤ) ≥ cfg.maxSignalsPerScan then ls
    else if signal.symbol ∈ ls.symbolsThisScan then
      runSignals cfg env today ticker rest ls
    else if cooldownBlocked cfg.cooldownDays today ls.lastAlert signal.symbol then
      runSignals cfg env today ticker rest ls
    else if sigKey signal today ∈ ls.seen then
      runSignals cfg env today ticker rest ls
    else
      runSignals cfg env today ticker rest
        { seen := sigKey signal today :: ls.seen
          lastAlert := (signal.symbol, today) :: ls.lastAlert
          symbolsThisScan := signal.symbol :: ls.symbolsThisScan
          alerted := ls.alerted + 1
          alerts := ls.alerts ++
            [pick_option_for_signal signal (env.chain ticker) env.optNow]
          fetches := ls.fetches ++ [ticker] }

/-- The per-ticker body (scanner.py lines 82-116): fetch candles, skip short
histories, resolve the price with the latest-close fallback, detect, then run
the signal loop. -/
def scanTicker (cfg : ScanConfig) (env : ScanEnv) (today : ℤ)
    (ticker : String) (ls : LoopSt) : LoopSt :=
  let daily := env.daily ticker
  if daily.length < 4 then ls
  else
    let weekly := env.weekly ticker
    let last_price :=
      match env.lastPrice ticker, daily.getLast? with
      | none, some c => some c.close
      | p, _ => p
    match last_price with
    | none => ls
    | some lp =>
      runSignals cfg env today ticker
        (detect_daily_strat_signals ticker daily weekly lp) ls

/-- The ticker loop with the global per-cycle cap (scanner.py lines 73-81). -/
def runTickers (cfg : ScanConfig) (env : ScanEnv) (today : ℤ) :
    List String → LoopSt → LoopSt
  | [], ls => ls
  | ticker :: rest, ls =>
    if (ls.alerted : ℤ) ≥ cfg.maxSignalsPerScan then ls
    else runTickers cfg env today rest (scanTicker cfg env today ticker ls)

/-- The outcome of one cycle: the new persistent state, the dispatched
alerts in order, and the tickers whose option chain was fetched. -/
structure CycleResult where
  state : ScanState
  alerts : List StratSignal
  fetches : List String
deriving DecidableEq, Repr

/-- `Scanner.scan_once` (scanner.py lines 39-197): reset the day-scoped seen
set when the trading date advanced, then run the ticker loop. -/
def scanOnce (cfg : ScanConfig) (env : ScanEnv) (today : ℤ)
    (st : ScanState) : CycleResult :=
  let seen0 := if st.currentSeenDate = some today then st.seenSignals else []
  let ls0 : LoopSt :=
    { seen := seen0, lastAlert := st.symbolLastAlertDate, symbolsThisScan := []
      alerted := 0, alerts := [], fetches := [] }
  let lsF := runTickers cfg env today cfg.tickers ls0
  { state :=
      { seenSignals := lsF.seen, currentSeenDate := some today
        symbolLastAlertDate := lsF.lastAlert }
    alerts := lsF.alerts
    fetches := lsF.fetches }

/-- A sequence of scan cycles, each at its own trading date and with its own
snapshot of the external data; returns the final state and all dispatched
alerts tagged with the date of their cycle. -/
def runCycles (cfg : ScanConfig) :
    List (ℤ × ScanEnv) → ScanState → ScanState × List (ℤ × StratSignal)
  | [], st => (st, [])
  | (d, env) :: rest, st =>
    let r := scanOnce cfg env d st
    let later := runCycles cfg rest r.state
    (later.1, r.alerts.map (fun s => (d, s)) ++ later.2)

/-! ## Theorems -/

/-- C9: `classify_candle_type` is a total function: for every pair of candles
it returns exactly one of the four categories INSIDE, TWO_UP, TWO_DOWN,
OUTSIDE; and whenever `current.high = previous.high` and
`current.low = previous.low`, the result is INSIDE (priority rule 1 wins over
rule 2 in the degenerate equal-range case). -/
theorem classify_total_and_degenerate_inside :
    (∀ current previous : Candle,
      classify_candle_type current previous = CandleType.INSIDE ∨
      classify_candle_type current previous = CandleType.TWO_UP ∨
      classify_candle_type current previous = CandleType.TWO_DOWN ∨
      classify_candle_type current previous = CandleType.OUTSIDE) ∧
    (∀ current previous : Candle,
      current.high = previous.high → current.low = previous.low →
      classify_candle_type current previous = CandleType.INSIDE) := by
  constructor
  · intro current previous
    cases h : classify_candle_type current previous <;> simp
  · intro current previous h1 h2
    simp [classify_candle_type, h1, h2]

/-- Witness for C9 at concrete candles: two equal-range candles classify as
INSIDE. -/
theorem classify_total_and_degenerate_inside_witness :
    classify_candle_type
      { timestamp := 1, open_ := 2, high := 10, low := 5, close := 7 }
      { timestamp := 0, open_ := 3, high := 10, low := 5, close := 6 } =
      CandleType.INSIDE :=
  classify_total_and_degenerate_inside.2 _ _ rfl rfl

/-- C3 counterexample: the claim says
`risk_reward("CALL", entry=100, stop=95, current_price=90)` is undefined
because reward ≤ 0; the code computes `reward = max(90, 100) − 95 = 5 > 0`
and returns `5 / 5 = 1`. -/
theorem risk_reward_call_100_95_90_returns_one :
    _calculate_risk_reward "CALL" (some 100) (some 95) (some 90) = some 1 ∧
    _calculate_risk_reward "CALL" (some 100) (some 95) (some 90) ≠ none := by
  constructor
  · norm_num [_calculate_risk_reward]
  · norm_num [_calculate_risk_reward]
    simp

/-- C3 (amended): `_calculate_risk_reward` with direction CALL, entry = 100,
stop = 95, current price = 90 returns 1 (reward = max(90,100) − 95 = 5,
risk = 5); for every direction and inputs it never returns a negative number,
and it is null whenever any input is missing, or risk ≤ 0, or reward ≤ 0. -/
theorem risk_reward_nonneg_and_null_conditions :
    _calculate_risk_reward "CALL" (some 100) (some 95) (some 90) = some 1 ∧
    (∀ (direction : String) (entry stop current_price : Option ℚ) (r : ℚ),
      _calculate_risk_reward direction entry stop current_price = some r →
      0 ≤ r) ∧
    (∀ (direction : String) (entry stop current_price : Option ℚ),
      entry = none ∨ stop = none ∨ current_price = none →
      _calculate_risk_reward direction entry stop current_price = none) ∧
    (∀ (direction : String) (e s cp : ℚ),
      |e - s| ≤ 0 ∨
        (if direction = "CALL" then max cp e - s else e - min cp e) ≤ 0 →
      _calculate_risk_reward direction (some e) (some s) (some cp) = none) := by
  refine ⟨by norm_num [_calculate_risk_reward], ?_, ?_, ?_⟩
  · intro direction entry stop current_price r h
    rcases entry with _ | e
    · simp [_calculate_risk_reward] at h
    rcases stop with _ | s
    · simp [_calculate_risk_reward] at h
    rcases current_price with _ | cp
    · simp [_calculate_risk_reward] at h
    simp only [_calculate_risk_reward] at h
    set reward := if direction = "CALL" then max cp e - s else e - min cp e with hr
    split_ifs at h with h1 h2
    obtain rfl := Option.some.inj h
    exact le_of_lt (div_pos (lt_of_not_le h2) (lt_of_not_le h1))
  · intro direction entry stop current_price h
    rcases entry with _ | e <;> rcases stop with _ | s <;>
      rcases current_price with _ | cp <;> simp_all [_calculate_risk_reward]
  · intro direction e s cp h
    simp only [_calculate_risk_reward]
    rcases h with h | h
    · rw [if_pos h]
    · by_cases h1 : |e - s| ≤ 0
      · rw [if_pos h1]
      · rw [if_neg h1, if_pos h]

/-- Witness for C3 at concrete inputs: a PUT with entry 100, stop 105, current
price 90 yields ratio 2, which is non-negative. -/
theorem risk_reward_nonneg_witness :
    _calculate_risk_reward "PUT" (some 100) (some 105) (some 90) = some 2 ∧
    (0 : ℚ) ≤ 2 :=
  ⟨by simp [_calculate_risk_reward]; norm_num,
    risk_reward_nonneg_and_null_conditions.2.1 "PUT" (some 100) (some 105)
      (some 90) 2 (by simp [_calculate_risk_reward]; norm_num)⟩

/-- A candle with a well-formed (present, positive) volume contributes exactly
its volume to the collected window, so the collection loses no elements. -/
theorem length_filterMap_volume (w : List Candle)
    (h : ∀ c ∈ w, badVolume c = false) :
    (w.filterMap (fun c => c.volume)).length = w.length := by
  induction w with
  | nil => simp
  | cons a t ih =>
    have ha := h a (by simp)
    obtain ⟨v, hv⟩ : ∃ v, a.volume = some v := by
      cases hv : a.volume with
      | none => simp [badVolume, hv] at ha
      | some v => exact ⟨v, rfl⟩
    simp [List.filterMap_cons, hv, ih fun c hc => h c (List.mem_cons_of_mem _ hc)]

/-- `badVolume c = false` exactly when the candle's volume is present and
strictly positive. -/
theorem badVolume_false_iff (c : Candle) :
    badVolume c = false ↔ ∃ v, c.volume = some v ∧ 0 < v := by
  cases hv : c.volume with
  | none => simp [badVolume, hv]
  | some v => simp [badVolume, hv, not_le]

/-- C8: `_calculate_volume_vs_avg_pct` is undefined for fewer than 21 total
candles, undefined when the latest bar's volume is missing, undefined when any
of the 20 candles immediately preceding the latest bar has missing or
non-positive volume, and otherwise equals
`(today_volume − avg(window)) / avg(window) × 100` over exactly that trailing
20-candle window. -/
theorem volume_vs_avg_pct_window_spec :
    (∀ l : List Candle, l.length < 21 → _calculate_volume_vs_avg_pct l = none) ∧
    (∀ (l : List Candle) (today : Candle), l.getLast? = some today →
      today.volume = none → _calculate_volume_vs_avg_pct l = none) ∧
    (∀ l : List Candle, (trailingWindow l).any badVolume = true →
      _calculate_volume_vs_avg_pct l = none) ∧
    (∀ (l : List Candle) (today : Candle) (tv : ℚ), 21 ≤ l.length →
      l.getLast? = some today → today.volume = some tv →
      (∀ c ∈ trailingWindow l, badVolume c = false) →
      _calculate_volume_vs_avg_pct l =
        some (((tv - windowAvg l) / windowAvg l) * 100)) := by
  refine ⟨?_, ?_, ?_, ?_⟩
  · intro l h
    simp only [_calculate_volume_vs_avg_pct, VOLUME_LOOKBACK_DAYS]
    rw [if_pos (by omega)]
  · intro l today hlast hvol
    by_cases hlen : l.length ≤ VOLUME_LOOKBACK_DAYS
    · simp [_calculate_volume_vs_avg_pct, hlen]
    · simp [_calculate_volume_vs_avg_pct, hlen, hlast, hvol]
  · intro l hany
    by_cases hlen : l.length ≤ VOLUME_LOOKBACK_DAYS
    · simp [_calculate_volume_vs_avg_pct, hlen]
    · cases hlast : l.getLast? with
      | none => simp [_calculate_volume_vs_avg_pct, hlen, hlast]
      | some today =>
        cases hvol : today.volume with
        | none => simp [_calculate_volume_vs_avg_pct, hlen, hlast, hvol]
        | some tv => simp [_calculate_volume_vs_avg_pct, hlen, hlast, hvol, hany]
  · intro l today tv hlen hlast hvol hgood
    have hnlen : ¬ l.length ≤ VOLUME_LOOKBACK_DAYS := by
      simp only [VOLUME_LOOKBACK_DAYS]; omega
    have hany : (trailingWindow l).any badVolume = false := by
      simp only [List.any_eq_false]
      intro c hc
      simp [hgood c hc]
    have hwlen : (trailingWindow l).length = VOLUME_LOOKBACK_DAYS := by
      simp only [trailingWindow, VOLUME_LOOKBACK_DAYS, List.length_take,
        List.length_drop]
      omega
    have hflen : ((trailingWindow l).filterMap (fun c => c.volume)).length = 20 := by
      rw [length_filterMap_volume _ hgood, hwlen]
      rfl
    have hpos : ∀ v ∈ (trailingWindow l).filterMap (fun c => c.volume), 0 < v := by
      intro v hv
      rw [List.mem_filterMap] at hv
      obtain ⟨c, hc, hcv⟩ := hv
      obtain ⟨w, hw, hwpos⟩ := (badVolume_false_iff c).mp (hgood c hc)
      rw [hw] at hcv
      cases hcv
      exact hwpos
    have hsum : 0 < ((trailingWindow l).filterMap (fun c => c.volume)).sum := by
      refine List.sum_pos _ hpos ?_
      intro hnil
      rw [hnil] at hflen
      simp at hflen
    have havg : ¬ windowAvg l ≤ 0 := by
      simp only [windowAvg, not_le]
      exact div_pos hsum (by rw [hflen]; norm_num)
    simp only [_calculate_volume_vs_avg_pct, hlast, hvol, hany, if_neg hnlen,
      Bool.false_eq_true, if_false, hflen, windowAvg]
    rw [if_neg (by norm_num [VOLUME_LOOKBACK_DAYS]),
      if_neg (by simpa [windowAvg, hflen] using havg)]

/-- Witness for C8: a series of 20 unit-volume candles followed by a
triple-volume latest bar yields +200%. -/
theorem volume_vs_avg_pct_window_spec_witness :
    _calculate_volume_vs_avg_pct
      (List.replicate 20
        { timestamp := 0, open_ := 1, high := 2, low := 1, close := 1,
          volume := some 1 } ++
        [{ timestamp := 21, open_ := 1, high := 2, low := 1, close := 1,
           volume := some 3 }]) = some 200 := by
  have h := volume_vs_avg_pct_window_spec.2.2.2
    (List.replicate 20
      { timestamp := 0, open_ := 1, high := 2, low := 1, close := 1,
        volume := some 1 } ++
      [{ timestamp := 21, open_ := 1, high := 2, low := 1, close := 1,
         volume := some 3 }])
    { timestamp := 21, open_ := 1, high := 2, low := 1, close := 1,
      volume := some 3 } 3
    (by simp) (by simp) rfl
    (by
      intro c hc
      simp only [trailingWindow, VOLUME_LOOKBACK_DAYS] at hc
      simp at hc
      rw [hc]
      rfl)
  rw [h]
  norm_num [windowAvg, trailingWindow, VOLUME_LOOKBACK_DAYS]

/-- C1: on a daily series of at least 4 candles whose last four (oldest
first) are `cRef, c0, c1, c2`, if `classify(c0, cRef) = TWO_UP`,
`classify(c1, c0) = INSIDE`, the weekly bias is up and `c2.high > c1.high`,
then the 1-2-2 detector returns exactly one CALL signal with
entry = `c1.high`, stop = `c1.low`, pattern "Daily 1-2U continuation" and the
derived metrics attached (see `bull122Signal`); the mirrored bearish input
yields the symmetric PUT signal (see `bear122Signal`). -/
theorem detect_122_bull_and_bear_spec :
    ∀ (symbol : String) (daily weekly : List Candle) (price : ℚ)
      (c2 c1 c0 cRef : Candle) (rest : List Candle),
      daily.reverse = c2 :: c1 :: c0 :: cRef :: rest →
      ((classify_candle_type c0 cRef = CandleType.TWO_UP →
        classify_candle_type c1 c0 = CandleType.INSIDE →
        get_weekly_bias weekly = "up" →
        c2.high > c1.high →
        detect_daily_122_signals symbol daily weekly price =
          [bull122Signal symbol daily c1 c2 price]) ∧
       (classify_candle_type c0 cRef = CandleType.TWO_DOWN →
        classify_candle_type c1 c0 = CandleType.INSIDE →
        get_weekly_bias weekly = "down" →
        c2.low < c1.low →
        detect_daily_122_signals symbol daily weekly price =
          [bear122Signal symbol daily c1 c2 price])) := by
  intro symbol daily weekly price c2 c1 c0 cRef rest hrev
  constructor
  · intro ht0 ht1 hb hc
    simp only [detect_daily_122_signals, hrev]
    rw [if_pos ⟨ht0, ht1, hb, hc⟩, if_neg (by simp [ht0])]
    simp
  · intro ht0 ht1 hb hc
    simp only [detect_daily_122_signals, hrev]
    rw [if_neg (by simp [ht0]), if_pos ⟨ht0, ht1, hb, hc⟩]
    simp

/-- Witness for C1 at concrete candle data: a bullish 1-2U setup emits
exactly its CALL signal, and the mirrored bearish setup exactly its PUT
signal. -/
theorem detect_122_bull_and_bear_spec_witness :
    detect_daily_122_signals "AAPL"
        [⟨0, 6, 10, 5, 7, none⟩, ⟨1, 7, 12, 6, 9, none⟩,
         ⟨2, 8, 11, 7, 9, none⟩, ⟨3, 9, 13, 8, 12, none⟩]
        [⟨0, 1, 3, 0, 2, none⟩] 10 =
      [bull122Signal "AAPL"
        [⟨0, 6, 10, 5, 7, none⟩, ⟨1, 7, 12, 6, 9, none⟩,
         ⟨2, 8, 11, 7, 9, none⟩, ⟨3, 9, 13, 8, 12, none⟩]
        ⟨2, 8, 11, 7, 9, none⟩ ⟨3, 9, 13, 8, 12, none⟩ 10] ∧
    detect_daily_122_signals "TSLA"
        [⟨0, 6, 10, 5, 7, none⟩, ⟨1, 6, 9, 4, 5, none⟩,
         ⟨2, 5, 8, 5, 6, none⟩, ⟨3, 5, 7, 3, 4, none⟩]
        [⟨0, 3, 4, 1, 2, none⟩] 6 =
      [bear122Signal "TSLA"
        [⟨0, 6, 10, 5, 7, none⟩, ⟨1, 6, 9, 4, 5, none⟩,
         ⟨2, 5, 8, 5, 6, none⟩, ⟨3, 5, 7, 3, 4, none⟩]
        ⟨2, 5, 8, 5, 6, none⟩ ⟨3, 5, 7, 3, 4, none⟩ 6] :=
  ⟨(detect_122_bull_and_bear_spec "AAPL"
      [⟨0, 6, 10, 5, 7, none⟩, ⟨1, 7, 12, 6, 9, none⟩,
       ⟨2, 8, 11, 7, 9, none⟩, ⟨3, 9, 13, 8, 12, none⟩]
      [⟨0, 1, 3, 0, 2, none⟩] 10
      ⟨3, 9, 13, 8, 12, none⟩ ⟨2, 8, 11, 7, 9, none⟩
      ⟨1, 7, 12, 6, 9, none⟩ ⟨0, 6, 10, 5, 7, none⟩ [] (by decide)).1
      (by decide) (by decide) (by decide) (by decide),
    (detect_122_bull_and_bear_spec "TSLA"
      [⟨0, 6, 10, 5, 7, none⟩, ⟨1, 6, 9, 4, 5, none⟩,
       ⟨2, 5, 8, 5, 6, none⟩, ⟨3, 5, 7, 3, 4, none⟩]
      [⟨0, 3, 4, 1, 2, none⟩] 6
      ⟨3, 5, 7, 3, 4, none⟩ ⟨2, 5, 8, 5, 6, none⟩
      ⟨1, 6, 9, 4, 5, none⟩ ⟨0, 6, 10, 5, 7, none⟩ [] (by decide)).2
      (by decide) (by decide) (by decide) (by decide)⟩

/-- Passing a zero underlying price to the bullish 1-2-2 builder is the same
as passing the latest close: Python's `underlying_price or c2.close` falls
back on the falsy float `0`. -/
theorem bull122Signal_zero_price (symbol : String) (daily : List Candle)
    (c1 c2 : Candle) :
    bull122Signal symbol daily c1 c2 0 = bull122Signal symbol daily c1 c2 c2.close := by
  simp [bull122Signal]

/-- Zero-price fallback for the bearish 1-2-2 builder. -/
theorem bear122Signal_zero_price (symbol : String) (daily : List Candle)
    (c1 c2 : Candle) :
    bear122Signal symbol daily c1 c2 0 = bear122Signal symbol daily c1 c2 c2.close := by
  simp [bear122Signal]

/-- Zero-price fallback for the bullish 2-1-2 builder. -/
theorem bull212Signal_zero_price (symbol : String) (daily : List Candle)
    (c1 c2 : Candle) :
    bull212Signal symbol daily c1 c2 0 = bull212Signal symbol daily c1 c2 c2.close := by
  simp [bull212Signal]

/-- Zero-price fallback for the bearish 2-1-2 builder. -/
theorem bear212Signal_zero_price (symbol : String) (daily : List Candle)
    (c1 c2 : Candle) :
    bear212Signal symbol daily c1 c2 0 = bear212Signal symbol daily c1 c2 c2.close := by
  simp [bear212Signal]

/-- C10: when the underlying price passed to the detectors is exactly 0 (not
only missing), every emitted signal's underlying-price snapshot and all
price-dependent derived metrics are computed from the latest daily candle's
close: detection at price 0 coincides with detection at the latest close, and
every signal emitted at price 0 carries the latest close as its underlying
price.  (The coordinator's own fallback, scanner.py lines 99-100, fires only
on a `None` price; this zero-price fallback lives inside the detectors.) -/
theorem detect_zero_price_uses_latest_close :
    ∀ (symbol : String) (daily weekly : List Candle) (c2 : Candle)
      (rest : List Candle),
      daily.reverse = c2 :: rest →
      detect_daily_strat_signals symbol daily weekly 0 =
        detect_daily_strat_signals symbol daily weekly c2.close ∧
      ∀ s ∈ detect_daily_strat_signals symbol daily weekly 0,
        s.underlying_price = c2.close := by
  intro symbol daily weekly c2 rest hrev
  rcases rest with _ | ⟨c1, rest⟩
  · simp [detect_daily_strat_signals, detect_daily_122_signals,
      detect_daily_212_signals, hrev]
  rcases rest with _ | ⟨c0, rest⟩
  · simp [detect_daily_strat_signals, detect_daily_122_signals,
      detect_daily_212_signals, hrev]
  rcases rest with _ | ⟨cRef, rest⟩
  · simp [detect_daily_strat_signals, detect_daily_122_signals,
      detect_daily_212_signals, hrev]
  constructor
  · simp only [detect_daily_strat_signals, detect_daily_122_signals,
      detect_daily_212_signals, hrev]
    split_ifs <;>
      simp [bull122Signal_zero_price, bear122Signal_zero_price,
        bull212Signal_zero_price, bear212Signal_zero_price]
  · intro s hs
    simp only [detect_daily_strat_signals, detect_daily_122_signals,
      detect_daily_212_signals, hrev] at hs
    split_ifs at hs <;>
      simp_all [bull122Signal, bear122Signal, bull212Signal, bear212Signal] <;>
      rcases hs with rfl | rfl <;> simp

/-- Witness for C10 at concrete data: with the underlying price supplied as
0, detection equals detection at the latest close 12 and the emitted signal
snapshots 12. -/
theorem detect_zero_price_uses_latest_close_witness :
    detect_daily_strat_signals "AAPL"
        [⟨0, 6, 10, 5, 7, none⟩, ⟨1, 7, 12, 6, 9, none⟩,
         ⟨2, 8, 11, 7, 9, none⟩, ⟨3, 9, 13, 8, 12, none⟩]
        [⟨0, 1, 3, 0, 2, none⟩] 0 =
      detect_daily_strat_signals "AAPL"
        [⟨0, 6, 10, 5, 7, none⟩, ⟨1, 7, 12, 6, 9, none⟩,
         ⟨2, 8, 11, 7, 9, none⟩, ⟨3, 9, 13, 8, 12, none⟩]
        [⟨0, 1, 3, 0, 2, none⟩] 12 ∧
    ∀ s ∈ detect_daily_strat_signals "AAPL"
        [⟨0, 6, 10, 5, 7, none⟩, ⟨1, 7, 12, 6, 9, none⟩,
         ⟨2, 8, 11, 7, 9, none⟩, ⟨3, 9, 13, 8, 12, none⟩]
        [⟨0, 1, 3, 0, 2, none⟩] 0,
      s.underlying_price = 12 :=
  detect_zero_price_uses_latest_close "AAPL"
    [⟨0, 6, 10, 5, 7, none⟩, ⟨1, 7, 12, 6, 9, none⟩,
     ⟨2, 8, 11, 7, 9, none⟩, ⟨3, 9, 13, 8, 12, none⟩]
    [⟨0, 1, 3, 0, 2, none⟩] ⟨3, 9, 13, 8, 12, none⟩
    [⟨2, 8, 11, 7, 9, none⟩, ⟨1, 7, 12, 6, 9, none⟩, ⟨0, 6, 10, 5, 7, none⟩]
    (by decide)

/-- C7: when the option chain is empty, or no contract passes the primary
filters and none passes even the relaxed fallback filters, the option
selector returns the input signal with every option field unchanged (the
result is the input record itself); this is a normal outcome, not an error. -/
theorem pick_option_unchanged_when_no_pass :
    ∀ (signal : StratSignal) (chain : List Contract) (now : ℤ),
      (chain = [] ∨
        (chain.filter (primaryPassB (desiredFor signal) now signal.underlying_price) = [] ∧
          chain.filter (relaxedPassB (desiredFor signal) now signal.underlying_price) = [])) →
      pick_option_for_signal signal chain now = signal := by
  intro signal chain now h
  rcases h with rfl | ⟨h1, h2⟩
  · simp [pick_option_for_signal]
  · simp [pick_option_for_signal, h1, h2, sortContracts]

/-- Witness for C7: a one-contract chain whose contract has no type passes
neither filter pass, so the signal comes back unchanged. -/
theorem pick_option_unchanged_when_no_pass_witness :
    pick_option_for_signal
      { symbol := "AAPL", direction := "CALL", pattern_name := "p",
        timeframe := "1D", bias_timeframe := "1W", entry_level := 100,
        stop_level := 95, target_level := none, underlying_price := 100 }
      [{ contract_type := none, expiration_date := some 3,
         strike_price := some 100, open_interest := some 1000,
         bid_price := .val 1, ask_price := .val 1, implied_vol := none,
         symbol := some "OPT" }] 0 =
      { symbol := "AAPL", direction := "CALL", pattern_name := "p",
        timeframe := "1D", bias_timeframe := "1W", entry_level := 100,
        stop_level := 95, target_level := none, underlying_price := 100 } :=
  pick_option_unchanged_when_no_pass _ _ 0
    (Or.inr ⟨by decide, by decide⟩)

/-- C6: whenever at least one contract in the chain passes all primary
filters, the selected contract is one of the primary-pass contracts — a
contract that only satisfies the relaxed fallback filters is never chosen,
whatever its strike distance to the entry level. -/
theorem pick_option_prefers_primary :
    ∀ (signal : StratSignal) (chain : List Contract) (now : ℤ),
      chain.filter (primaryPassB (desiredFor signal) now signal.underlying_price) ≠ [] →
      ∃ c ∈ chain.filter (primaryPassB (desiredFor signal) now signal.underlying_price),
        pick_option_for_signal signal chain now =
          attachOption signal (desiredFor signal) c := by
  intro signal chain now h
  have hchain : ¬ chain.isEmpty = true := by
    intro hh
    rw [List.isEmpty_iff] at hh
    exact h (by simp [hh])
  have hne : ¬ (chain.filter
      (primaryPassB (desiredFor signal) now signal.underlying_price)).isEmpty = true := by
    intro hh
    rw [List.isEmpty_iff] at hh
    exact h hh
  obtain ⟨c, cs, hsort⟩ : ∃ c cs,
      sortContracts signal.entry_level now
        (chain.filter (primaryPassB (desiredFor signal) now signal.underlying_price)) =
        c :: cs := by
    cases hs : sortContracts signal.entry_level now
        (chain.filter (primaryPassB (desiredFor signal) now signal.underlying_price)) with
    | nil =>
      exfalso
      apply h
      have := congrArg List.length hs
      rw [sortContracts, List.length_mergeSort] at this
      exact List.length_eq_zero.mp this
    | cons c cs => exact ⟨c, cs, rfl⟩
  refine ⟨c, ?_, ?_⟩
  · have : c ∈ sortContracts signal.entry_level now
        (chain.filter (primaryPassB (desiredFor signal) now signal.underlying_price)) := by
      rw [hsort]
      exact List.mem_cons_self _ _
    rwa [sortContracts, List.mem_mergeSort] at this
  · simp only [pick_option_for_signal, if_neg hchain, if_neg hne, hsort]

/-- Witness for C6: the chain holds a relaxed-only contract at the entry
strike (listed first, closer) and a primary-pass contract 10 points away; the
chosen contract is a primary-pass one. -/
theorem pick_option_prefers_primary_witness :
    ∃ c ∈ ([{ contract_type := some "call", expiration_date := some 5,
              strike_price := some 100, open_interest := some 20,
              bid_price := .val (7/10), ask_price := .val 1,
              implied_vol := none, symbol := some "RELAXED" },
            { contract_type := some "call", expiration_date := some 5,
              strike_price := some 110, open_interest := some 100,
              bid_price := .val (9/10), ask_price := .val 1,
              implied_vol := none, symbol := some "PRIMARY" }] :
        List Contract).filter
          (primaryPassB
            (desiredFor
              { symbol := "AAPL", direction := "CALL", pattern_name := "p",
                timeframe := "1D", bias_timeframe := "1W", entry_level := 100,
                stop_level := 95, target_level := none,
                underlying_price := 100 }) 0 100),
      pick_option_for_signal
        { symbol := "AAPL", direction := "CALL", pattern_name := "p",
          timeframe := "1D", bias_timeframe := "1W", entry_level := 100,
          stop_level := 95, target_level := none, underlying_price := 100 }
        [{ contract_type := some "call", expiration_date := some 5,
           strike_price := some 100, open_interest := some 20,
           bid_price := .val (7/10), ask_price := .val 1,
           implied_vol := none, symbol := some "RELAXED" },
         { contract_type := some "call", expiration_date := some 5,
           strike_price := some 110, open_interest := some 100,
           bid_price := .val (9/10), ask_price := .val 1,
           implied_vol := none, symbol := some "PRIMARY" }] 0 =
        attachOption
          { symbol := "AAPL", direction := "CALL", pattern_name := "p",
            timeframe := "1D", bias_timeframe := "1W", entry_level := 100,
            stop_level := 95, target_level := none, underlying_price := 100 }
          (desiredFor
            { symbol := "AAPL", direction := "CALL", pattern_name := "p",
              timeframe := "1D", bias_timeframe := "1W", entry_level := 100,
              stop_level := 95, target_level := none,
              underlying_price := 100 }) c := by
  have hA : primaryPassB "call" 0 100
      { contract_type := some "call", expiration_date := some 5,
        strike_price := some 110, open_interest := some 100,
        bid_price := .val (9/10), ask_price := .val 1,
        implied_vol := none, symbol := some "PRIMARY" } = true := by
    norm_num [primaryPassB, typeOkB, expiryOkB, moneyOkB, liqOkB,
      Contract.oiVal, NumField.orZero, pyLower]
    decide
  have hB : primaryPassB "call" 0 100
      { contract_type := some "call", expiration_date := some 5,
        strike_price := some 100, open_interest := some 20,
        bid_price := .val (7/10), ask_price := .val 1,
        implied_vol := none, symbol := some "RELAXED" } = false := by
    norm_num [primaryPassB, typeOkB, expiryOkB, moneyOkB, liqOkB,
      Contract.oiVal, NumField.orZero, pyLower]
  refine pick_option_prefers_primary _ _ 0 ?_
  show ([{ contract_type := some "call", expiration_date := some 5,
           strike_price := some 100, open_interest := some 20,
           bid_price := .val (7/10), ask_price := .val 1,
           implied_vol := none, symbol := some "RELAXED" },
         { contract_type := some "call", expiration_date := some 5,
           strike_price := some 110, open_interest := some 100,
           bid_price := .val (9/10), ask_price := .val 1,
           implied_vol := none, symbol := some "PRIMARY" }] :
      List Contract).filter (primaryPassB "call" 0 100) ≠ []
  simp [List.filter, hA, hB]

/-- The option selector never changes the signal's symbol. -/
theorem pick_option_symbol (signal : StratSignal) (chain : List Contract)
    (now : ℤ) :
    (pick_option_for_signal signal chain now).symbol = signal.symbol := by
  rw [pick_option_for_signal]
  split_ifs
  · rfl
  · dsimp only
    split <;> rfl

/-- The option selector only touches option fields, so the day-dedup key of
the dispatched signal equals the key of the detected signal. -/
theorem sigKey_pick (signal : StratSignal) (chain : List Contract)
    (now today : ℤ) :
    sigKey (pick_option_for_signal signal chain now) today =
      sigKey signal today := by
  rw [pick_option_for_signal]
  split_ifs
  · rfl
  · dsimp only
    split <;> rfl

/-- Invariant of the per-signal loop, relative to a baseline seen-set `S0`:
dispatched alerts carry pairwise-distinct day-dedup keys, every dispatched key
is recorded in the seen set and none of them was in `S0`, and `S0` stays in
the seen set. -/
theorem runSignals_inv (cfg : ScanConfig) (env : ScanEnv) (today : ℤ)
    (ticker : String) :
    ∀ (sigs : List StratSignal) (S0 : List String) (ls : LoopSt),
      ((ls.alerts.map fun s => sigKey s today).Nodup ∧
        (∀ k ∈ ls.alerts.map fun s => sigKey s today, k ∈ ls.seen ∧ k ∉ S0) ∧
        (∀ k ∈ S0, k ∈ ls.seen)) →
      (((runSignals cfg env today ticker sigs ls).alerts.map
          fun s => sigKey s today).Nodup ∧
        (∀ k ∈ (runSignals cfg env today ticker sigs ls).alerts.map
            fun s => sigKey s today,
          k ∈ (runSignals cfg env today ticker sigs ls).seen ∧ k ∉ S0) ∧
        (∀ k ∈ S0, k ∈ (runSignals cfg env today ticker sigs ls).seen)) := by
  intro sigs
  induction sigs with
  | nil => intro S0 ls h; simpa [runSignals] using h
  | cons signal rest ih =>
    intro S0 ls h
    obtain ⟨h1, h2, h3⟩ := h
    rw [runSignals]
    split_ifs with hcap hsym hcool hseen
    · exact ⟨h1, h2, h3⟩
    · exact ih S0 ls ⟨h1, h2, h3⟩
    · exact ih S0 ls ⟨h1, h2, h3⟩
    · exact ih S0 ls ⟨h1, h2, h3⟩
    · apply ih
      refine ⟨?_, ?_, ?_⟩
      · rw [List.map_append]
        rw [List.nodup_append]
        refine ⟨h1, by simp [sigKey_pick], ?_⟩
        intro k hk hk'
        simp only [List.map_cons, List.map_nil, sigKey_pick,
          List.mem_singleton] at hk'
        subst hk'
        exact hseen (h2 _ hk).1
      · intro k hk
        rw [List.map_append] at hk
        rcases List.mem_append.mp hk with hk | hk
        · exact ⟨List.mem_cons_of_mem _ (h2 _ hk).1, (h2 _ hk).2⟩
        · simp only [List.map_cons, List.map_nil, sigKey_pick,
            List.mem_singleton] at hk
          subst hk
          refine ⟨List.mem_cons_self _ _, fun hk0 => hseen (h3 _ hk0)⟩
      · intro k hk
        exact List.mem_cons_of_mem _ (h3 _ hk)

/-- The per-ticker body preserves the dedup invariant. -/
theorem scanTicker_inv (cfg : ScanConfig) (env : ScanEnv) (today : ℤ)
    (ticker : String) (S0 : List String) (ls : LoopSt)
    (h : (ls.alerts.map fun s => sigKey s today).Nodup ∧
      (∀ k ∈ ls.alerts.map fun s => sigKey s today, k ∈ ls.seen ∧ k ∉ S0) ∧
      (∀ k ∈ S0, k ∈ ls.seen)) :
    (((scanTicker cfg env today ticker ls).alerts.map
        fun s => sigKey s today).Nodup ∧
      (∀ k ∈ (scanTicker cfg env today ticker ls).alerts.map
          fun s => sigKey s today,
        k ∈ (scanTicker cfg env today ticker ls).seen ∧ k ∉ S0) ∧
      (∀ k ∈ S0, k ∈ (scanTicker cfg env today ticker ls).seen)) := by
  rw [scanTicker]
  split_ifs
  · exact h
  · dsimp only
    split
    · exact h
    · exact runSignals_inv cfg env today ticker _ S0 ls h

/-- The ticker loop preserves the dedup invariant. -/
theorem runTickers_inv (cfg : ScanConfig) (env : ScanEnv) (today : ℤ) :
    ∀ (tickers : List String) (S0 : List String) (ls : LoopSt),
      ((ls.alerts.map fun s => sigKey s today).Nodup ∧
        (∀ k ∈ ls.alerts.map fun s => sigKey s today, k ∈ ls.seen ∧ k ∉ S0) ∧
        (∀ k ∈ S0, k ∈ ls.seen)) →
      (((runTickers cfg env today tickers ls).alerts.map
          fun s => sigKey s today).Nodup ∧
        (∀ k ∈ (runTickers cfg env today tickers ls).alerts.map
            fun s => sigKey s today,
          k ∈ (runTickers cfg env today tickers ls).seen ∧ k ∉ S0) ∧
        (∀ k ∈ S0, k ∈ (runTickers cfg env today tickers ls).seen)) := by
  intro tickers
  induction tickers with
  | nil => intro S0 ls h; simpa [runTickers] using h
  | cons ticker rest ih =>
    intro S0 ls h
    rw [runTickers]
    split_ifs
    · exact h
    · exact ih S0 _ (scanTicker_inv cfg env today ticker S0 ls h)

/-- One cycle of `scan_once`, relative to the post-reset baseline seen-set:
its alerts carry pairwise-distinct keys, none of which was in the baseline,
all of which are recorded in the resulting seen set together with the
baseline; and the resulting state is scoped to `today`. -/
theorem scanOnce_inv (cfg : ScanConfig) (env : ScanEnv) (today : ℤ)
    (st : ScanState) :
    (((scanOnce cfg env today st).alerts.map fun s => sigKey s today).Nodup ∧
      (∀ k ∈ (scanOnce cfg env today st).alerts.map fun s => sigKey s today,
        k ∈ (scanOnce cfg env today st).state.seenSignals ∧
          k ∉ (if st.currentSeenDate = some today then st.seenSignals else [])) ∧
      (∀ k ∈ (if st.currentSeenDate = some today then st.seenSignals else []),
        k ∈ (scanOnce cfg env today st).state.seenSignals)) ∧
    (scanOnce cfg env today st).state.currentSeenDate = some today := by
  constructor
  · exact runTickers_inv cfg env today cfg.tickers _ _
      ⟨by simp, by simp, fun k hk => hk⟩
  · rfl

/-- C4: running the coordinator twice on identical data within the same
trading date dispatches at most one alert for any given
(symbol, pattern name, direction, entry level) combination — the day-scoped
seen-signal key recorded on the first alert makes the second run skip the
duplicate. -/
theorem scan_twice_same_day_dedup (cfg : ScanConfig) (env : ScanEnv)
    (today : ℤ) (st : ScanState) (sym pat dir : String) (ent : ℚ) :
    (((scanOnce cfg env today st).alerts ++
        (scanOnce cfg env today (scanOnce cfg env today st).state).alerts).countP
      fun s => decide (s.symbol = sym ∧ s.pattern_name = pat ∧
        s.direction = dir ∧ s.entry_level = ent)) ≤ 1 := by
  set r1 := scanOnce cfg env today st with hr1
  set r2 := scanOnce cfg env today r1.state with hr2
  obtain ⟨⟨h1n, h1m, _⟩, h1d⟩ := scanOnce_inv cfg env today st
  obtain ⟨⟨h2n, h2m, _⟩, _⟩ := scanOnce_inv cfg env today r1.state
  rw [h1d] at h2m
  simp only [if_pos rfl] at h2m
  -- the combined key lists are duplicate-free
  have hnodup : ((r1.alerts ++ r2.alerts).map fun s => sigKey s today).Nodup := by
    rw [List.map_append, List.nodup_append]
    refine ⟨h1n, h2n, ?_⟩
    intro k hk1 hk2
    exact (h2m k hk2).2 (h1m k hk1).1
  -- counting a fixed combination is bounded by counting its key
  have hmono : ((r1.alerts ++ r2.alerts).countP
      fun s => decide (s.symbol = sym ∧ s.pattern_name = pat ∧
        s.direction = dir ∧ s.entry_level = ent)) ≤
      ((r1.alerts ++ r2.alerts).countP
        fun s => decide (sigKey s today =
          sym ++ ":" ++ pat ++ ":" ++ dir ++ ":" ++ toString ent ++ ":" ++
            toString today)) := by
    apply List.countP_mono_left
    intro s _ hs
    rw [decide_eq_true_eq] at hs
    obtain ⟨e1, e2, e3, e4⟩ := hs
    rw [decide_eq_true_eq, sigKey, e1, e2, e3, e4]
  refine le_trans hmono ?_
  have hcount : ∀ (l : List StratSignal) (K : String),
      (l.map fun s => sigKey s today).Nodup →
      (l.countP fun s => decide (sigKey s today = K)) ≤ 1 := by
    intro l K hnd
    have : (l.countP fun s => decide (sigKey s today = K)) =
        ((l.map fun s => sigKey s today).countP fun k => decide (k = K)) := by
      rw [List.countP_map]
      rfl
    rw [this]
    have := List.nodup_iff_count_le_one.mp hnd K
    rw [List.count] at this
    calc ((l.map fun s => sigKey s today).countP fun k => decide (k = K)) =
        ((l.map fun s => sigKey s today).countP fun k => k == K) := by
          apply List.countP_congr
          intro k _
          by_cases hk : k = K
          · simp [hk]
          · simp [hk]
      _ ≤ 1 := this
  exact hcount _ _ hnodup

/-- Once the cap is reached, the ticker loop is a no-op on any remaining
instruments. -/
theorem runTickers_of_cap (cfg : ScanConfig) (env : ScanEnv) (today : ℤ) :
    ∀ (tickers : List String) (ls : LoopSt),
      cfg.maxSignalsPerScan ≤ (ls.alerted : ℤ) →
      runTickers cfg env today tickers ls = ls := by
  intro tickers
  induction tickers with
  | nil => intro ls _; rfl
  | cons ticker rest ih =>
    intro ls h
    rw [runTickers, if_pos h]

/-- C5: once the number of alerted signals reaches the configured per-cycle
maximum, no further instrument in that cycle is evaluated: processing any
further tickers changes nothing — in particular the option-chain fetch log
stays exactly as it was when the cap was hit. -/
theorem cap_stops_further_instruments (cfg : ScanConfig) (env : ScanEnv)
    (today : ℤ) :
    ∀ (ts1 ts2 : List String) (ls : LoopSt),
      cfg.maxSignalsPerScan ≤ ((runTickers cfg env today ts1 ls).alerted : ℤ) →
      runTickers cfg env today (ts1 ++ ts2) ls =
          runTickers cfg env today ts1 ls ∧
        (runTickers cfg env today (ts1 ++ ts2) ls).fetches =
          (runTickers cfg env today ts1 ls).fetches := by
  intro ts1
  induction ts1 with
  | nil =>
    intro ts2 ls h
    have : runTickers cfg env today ([] ++ ts2) ls = ls :=
      runTickers_of_cap cfg env today ts2 ls h
    exact ⟨this, by rw [this, runTickers]⟩
  | cons ticker rest ih =>
    intro ts2 ls h
    by_cases hcap : cfg.maxSignalsPerScan ≤ (ls.alerted : ℤ)
    · rw [List.cons_append, runTickers, if_pos hcap, runTickers, if_pos hcap]
      exact ⟨rfl, rfl⟩
    · rw [runTickers, if_neg hcap] at h
      constructor
      · rw [List.cons_append, runTickers, if_neg hcap, runTickers, if_neg hcap]
        exact (ih ts2 _ h).1
      · rw [List.cons_append, runTickers, if_neg hcap, runTickers, if_neg hcap]
        exact (ih ts2 _ h).2

/-- Witness for C5: with a per-cycle cap of 0 the cap is already reached, so
appending a ticker to an empty schedule is a complete no-op. -/
theorem cap_stops_further_instruments_witness :
    runTickers { tickers := ["AAPL"], maxSignalsPerScan := 0, cooldownDays := 0 }
        { daily := fun _ => [], weekly := fun _ => [], lastPrice := fun _ => none,
          chain := fun _ => [], optNow := 0 } 0 ([] ++ ["AAPL"])
        { seen := [], lastAlert := [], symbolsThisScan := [], alerted := 0,
          alerts := [], fetches := [] } =
      runTickers { tickers := ["AAPL"], maxSignalsPerScan := 0, cooldownDays := 0 }
        { daily := fun _ => [], weekly := fun _ => [], lastPrice := fun _ => none,
          chain := fun _ => [], optNow := 0 } 0 []
        { seen := [], lastAlert := [], symbolsThisScan := [], alerted := 0,
          alerts := [], fetches := [] } ∧
    (runTickers { tickers := ["AAPL"], maxSignalsPerScan := 0, cooldownDays := 0 }
        { daily := fun _ => [], weekly := fun _ => [], lastPrice := fun _ => none,
          chain := fun _ => [], optNow := 0 } 0 ([] ++ ["AAPL"])
        { seen := [], lastAlert := [], symbolsThisScan := [], alerted := 0,
          alerts := [], fetches := [] }).fetches =
      (runTickers { tickers := ["AAPL"], maxSignalsPerScan := 0, cooldownDays := 0 }
        { daily := fun _ => [], weekly := fun _ => [], lastPrice := fun _ => none,
          chain := fun _ => [], optNow := 0 } 0 []
        { seen := [], lastAlert := [], symbolsThisScan := [], alerted := 0,
          alerts := [], fetches := [] }).fetches :=
  cap_stops_further_instruments _ _ 0 [] ["AAPL"] _ (by decide)

/-- Through the signal loop, once a symbol has been alerted its recorded
last-alert date is today; dispatching records it, and nothing removes it. -/
theorem runSignals_lastAlert (cfg : ScanConfig) (env : ScanEnv) (today : ℤ)
    (ticker : String) :
    ∀ (sigs : List StratSignal) (ls : LoopSt) (sym : String),
      (sym ∈ ls.alerts.map StratSignal.symbol →
        ls.lastAlert.lookup sym = some today) →
      (sym ∈ (runSignals cfg env today ticker sigs ls).alerts.map
          StratSignal.symbol →
        (runSignals cfg env today ticker sigs ls).lastAlert.lookup sym =
          some today) := by
  intro sigs
  induction sigs with
  | nil => intro ls sym h; simpa [runSignals] using h
  | cons signal rest ih =>
    intro ls sym h
    rw [runSignals]
    split_ifs with hcap hsym hcool hseen
    · exact h
    · exact ih ls sym h
    · exact ih ls sym h
    · exact ih ls sym h
    · apply ih
      intro hmem
      by_cases hx : signal.symbol = sym
      · simp [List.lookup, hx]
      · have hold : sym ∈ ls.alerts.map StratSignal.symbol := by
          rw [List.map_append] at hmem
          rcases List.mem_append.mp hmem with hm | hm
          · exact hm
          · simp only [List.map_cons, List.map_nil, pick_option_symbol,
              List.mem_singleton] at hm
            exact absurd hm.symm hx
        have hl := h hold
        simpa [List.lookup, beq_eq_false_iff_ne.mpr (Ne.symm hx)] using hl

/-- `scanTicker` version of `runSignals_lastAlert`. -/
theorem scanTicker_lastAlert (cfg : ScanConfig) (env : ScanEnv) (today : ℤ)
    (ticker : String) (ls : LoopSt) (sym : String)
    (h : sym ∈ ls.alerts.map StratSignal.symbol →
      ls.lastAlert.lookup sym = some today) :
    sym ∈ (scanTicker cfg env today ticker ls).alerts.map StratSignal.symbol →
    (scanTicker cfg env today ticker ls).lastAlert.lookup sym = some today := by
  rw [scanTicker]
  split_ifs
  · exact h
  · dsimp only
    split
    · exact h
    · exact runSignals_lastAlert cfg env today ticker _ ls sym h

/-- `runTickers` version of `runSignals_lastAlert`. -/
theorem runTickers_lastAlert (cfg : ScanConfig) (env : ScanEnv) (today : ℤ) :
    ∀ (tickers : List String) (ls : LoopSt) (sym : String),
      (sym ∈ ls.alerts.map StratSignal.symbol →
        ls.lastAlert.lookup sym = some today) →
      (sym ∈ (runTickers cfg env today tickers ls).alerts.map
          StratSignal.symbol →
        (runTickers cfg env today tickers ls).lastAlert.lookup sym =
          some today) := by
  intro tickers
  induction tickers with
  | nil => intro ls sym h; simpa [runTickers] using h
  | cons ticker rest ih =>
    intro ls sym h
    rw [runTickers]
    split_ifs
    · exact h
    · exact ih _ sym (scanTicker_lastAlert cfg env today ticker ls sym h)

/-- A symbol alerted during a cycle has that cycle's date recorded as its
last-alert date in the resulting state. -/
theorem scanOnce_alert_lastAlert (cfg : ScanConfig) (env : ScanEnv)
    (today : ℤ) (st : ScanState) (sym : String) :
    sym ∈ (scanOnce cfg env today st).alerts.map StratSignal.symbol →
    (scanOnce cfg env today st).state.symbolLastAlertDate.lookup sym =
      some today := by
  intro hmem
  exact runTickers_lastAlert cfg env today cfg.tickers _ sym (by simp) hmem

/-- Through the signal loop with a positive cooldown: a symbol whose recorded
last-alert date is within the cooldown window is never dispatched, and its
recorded date is untouched. -/
theorem runSignals_cooldown (cfg : ScanConfig) (env : ScanEnv) (today : ℤ)
    (ticker : String) (sym : String) (d : ℤ)
    (hcd : 0 < cfg.cooldownDays) (hday : today - d < cfg.cooldownDays) :
    ∀ (sigs : List StratSignal) (ls : LoopSt),
      ls.lastAlert.lookup sym = some d →
      (∀ s ∈ ls.alerts, s.symbol ≠ sym) →
      ((runSignals cfg env today ticker sigs ls).lastAlert.lookup sym =
          some d ∧
        ∀ s ∈ (runSignals cfg env today ticker sigs ls).alerts,
          s.symbol ≠ sym) := by
  intro sigs
  induction sigs with
  | nil => intro ls h1 h2; rw [runSignals]; exact ⟨h1, h2⟩
  | cons signal rest ih =>
    intro ls h1 h2
    rw [runSignals]
    split_ifs with hcap hsym hcool hseen
    · exact ⟨h1, h2⟩
    · exact ih ls h1 h2
    · exact ih ls h1 h2
    · exact ih ls h1 h2
    · have hx : signal.symbol ≠ sym := by
        intro hx
        apply hcool
        rw [cooldownBlocked, hx, h1]
        simp [hcd, hday]
      apply ih
      · simpa [List.lookup, beq_eq_false_iff_ne.mpr (Ne.symm hx)] using h1
      · intro s hs
        rcases List.mem_append.mp hs with hm | hm
        · exact h2 s hm
        · rw [List.mem_singleton] at hm
          subst hm
          rw [pick_option_symbol]
          exact hx

/-- `scanTicker` version of `runSignals_cooldown`. -/
theorem scanTicker_cooldown (cfg : ScanConfig) (env : ScanEnv) (today : ℤ)
    (ticker : String) (sym : String) (d : ℤ)
    (hcd : 0 < cfg.cooldownDays) (hday : today - d < cfg.cooldownDays)
    (ls : LoopSt) (h1 : ls.lastAlert.lookup sym = some d)
    (h2 : ∀ s ∈ ls.alerts, s.symbol ≠ sym) :
    ((scanTicker cfg env today ticker ls).lastAlert.lookup sym = some d ∧
      ∀ s ∈ (scanTicker cfg env today ticker ls).alerts, s.symbol ≠ sym) := by
  rw [scanTicker]
  split_ifs
  · exact ⟨h1, h2⟩
  · dsimp only
    split
    · exact ⟨h1, h2⟩
    · exact runSignals_cooldown cfg env today ticker sym d hcd hday _ ls h1 h2

/-- `runTickers` version of `runSignals_cooldown`. -/
theorem runTickers_cooldown (cfg : ScanConfig) (env : ScanEnv) (today : ℤ)
    (sym : String) (d : ℤ)
    (hcd : 0 < cfg.cooldownDays) (hday : today - d < cfg.cooldownDays) :
    ∀ (tickers : List String) (ls : LoopSt),
      ls.lastAlert.lookup sym = some d →
      (∀ s ∈ ls.alerts, s.symbol ≠ sym) →
      ((runTickers cfg env today tickers ls).lastAlert.lookup sym = some d ∧
        ∀ s ∈ (runTickers cfg env today tickers ls).alerts, s.symbol ≠ sym) := by
  intro tickers
  induction tickers with
  | nil => intro ls h1 h2; rw [runTickers]; exact ⟨h1, h2⟩
  | cons ticker rest ih =>
    intro ls h1 h2
    rw [runTickers]
    split_ifs
    · exact ⟨h1, h2⟩
    · obtain ⟨h1', h2'⟩ :=
        scanTicker_cooldown cfg env today ticker sym d hcd hday ls h1 h2
      exact ih _ h1' h2'

/-- A whole cycle within a symbol's cooldown window dispatches nothing for
that symbol and leaves its recorded last-alert date unchanged. -/
theorem scanOnce_cooldown_skip (cfg : ScanConfig) (env : ScanEnv)
    (today : ℤ) (st : ScanState) (sym : String) (d : ℤ)
    (hcd : 0 < cfg.cooldownDays)
    (hla : st.symbolLastAlertDate.lookup sym = some d)
    (hday : today - d < cfg.cooldownDays) :
    ((scanOnce cfg env today st).state.symbolLastAlertDate.lookup sym =
        some d ∧
      ∀ s ∈ (scanOnce cfg env today st).alerts, s.symbol ≠ sym) := by
  exact runTickers_cooldown cfg env today sym d hcd hday cfg.tickers _ hla
    (by simp)

/-- C2: with the cooldown configuration value set to 3 days, a symbol alerted
in a cycle at trading day D is not alerted by any later cycle run at a day
earlier than D + 3, even if a different qualifying pattern for the symbol
appears in those cycles. -/
theorem cooldown_three_day_suppression :
    ∀ (cfg : ScanConfig) (env : ScanEnv) (st : ScanState) (D : ℤ) (sym : String)
      (cycles : List (ℤ × ScanEnv)),
      cfg.cooldownDays = 3 →
      sym ∈ (scanOnce cfg env D st).alerts.map StratSignal.symbol →
      (∀ p ∈ cycles, p.1 - D < 3) →
      ∀ q ∈ (runCycles cfg cycles (scanOnce cfg env D st).state).2,
        q.2.symbol ≠ sym := by
  intro cfg env st D sym cycles hcd hmem hdays
  have hla := scanOnce_alert_lastAlert cfg env D st sym hmem
  have main : ∀ (cs : List (ℤ × ScanEnv)) (st' : ScanState),
      st'.symbolLastAlertDate.lookup sym = some D →
      (∀ p ∈ cs, p.1 - D < 3) →
      ∀ q ∈ (runCycles cfg cs st').2, q.2.symbol ≠ sym := by
    intro cs
    induction cs with
    | nil =>
      intro st' _ _ q hq
      simp [runCycles] at hq
    | cons c rest ih =>
      obtain ⟨d0, env0⟩ := c
      intro st' hla' hdays' q hq
      obtain ⟨hkeep, hnone⟩ := scanOnce_cooldown_skip cfg env0 d0 st' sym D
        (by rw [hcd]; norm_num) hla'
        (by rw [hcd]; exact hdays' (d0, env0) (List.mem_cons_self _ _))
      rw [runCycles] at hq
      dsimp only at hq
      rcases List.mem_append.mp hq with hm | hm
      · rw [List.mem_map] at hm
        obtain ⟨s, hs, rfl⟩ := hm
        exact hnone s hs
      · exact ih _ hkeep
          (fun p hp => hdays' p (List.mem_cons_of_mem _ hp)) q hm
  exact main cycles _ hla hdays

/-- Witness for C2: with cooldown 3, a symbol alerted at day 0 is not alerted
by cycles run at days 1 and 2 on identical data. -/
theorem cooldown_three_day_suppression_witness :
    ((runCycles
        { tickers := ["AAPL"], maxSignalsPerScan := 50, cooldownDays := 3 }
        [(1, { daily := fun _ => [⟨0, 6, 10, 5, 7, none⟩, ⟨1, 7, 12, 6, 9, none⟩,
                 ⟨2, 8, 11, 7, 9, none⟩, ⟨3, 9, 13, 8, 12, none⟩],
               weekly := fun _ => [⟨0, 1, 3, 0, 2, none⟩],
               lastPrice := fun _ => some 10, chain := fun _ => [], optNow := 0 }),
         (2, { daily := fun _ => [⟨0, 6, 10, 5, 7, none⟩, ⟨1, 7, 12, 6, 9, none⟩,
                 ⟨2, 8, 11, 7, 9, none⟩, ⟨3, 9, 13, 8, 12, none⟩],
               weekly := fun _ => [⟨0, 1, 3, 0, 2, none⟩],
               lastPrice := fun _ => some 10, chain := fun _ => [], optNow := 0 })]
        (scanOnce
          { tickers := ["AAPL"], maxSignalsPerScan := 50, cooldownDays := 3 }
          { daily := fun _ => [⟨0, 6, 10, 5, 7, none⟩, ⟨1, 7, 12, 6, 9, none⟩,
              ⟨2, 8, 11, 7, 9, none⟩, ⟨3, 9, 13, 8, 12, none⟩],
            weekly := fun _ => [⟨0, 1, 3, 0, 2, none⟩],
            lastPrice := fun _ => some 10, chain := fun _ => [], optNow := 0 }
          0
          { seenSignals := [], currentSeenDate := none,
            symbolLastAlertDate := [] }).state).2.all
      fun q => !(q.2.symbol == "AAPL")) = true := by
  have h := cooldown_three_day_suppression
    { tickers := ["AAPL"], maxSignalsPerScan := 50, cooldownDays := 3 }
    { daily := fun _ => [⟨0, 6, 10, 5, 7, none⟩, ⟨1, 7, 12, 6, 9, none⟩,
        ⟨2, 8, 11, 7, 9, none⟩, ⟨3, 9, 13, 8, 12, none⟩],
      weekly := fun _ => [⟨0, 1, 3, 0, 2, none⟩],
      lastPrice := fun _ => some 10, chain := fun _ => [], optNow := 0 }
    { seenSignals := [], currentSeenDate := none, symbolLastAlertDate := [] }
    0 "AAPL"
    [(1, { daily := fun _ => [⟨0, 6, 10, 5, 7, none⟩, ⟨1, 7, 12, 6, 9, none⟩,
             ⟨2, 8, 11, 7, 9, none⟩, ⟨3, 9, 13, 8, 12, none⟩],
           weekly := fun _ => [⟨0, 1, 3, 0, 2, none⟩],
           lastPrice := fun _ => some 10, chain := fun _ => [], optNow := 0 }),
     (2, { daily := fun _ => [⟨0, 6, 10, 5, 7, none⟩, ⟨1, 7, 12, 6, 9, none⟩,
             ⟨2, 8, 11, 7, 9, none⟩, ⟨3, 9, 13, 8, 12, none⟩],
           weekly := fun _ => [⟨0, 1, 3, 0, 2, none⟩],
           lastPrice := fun _ => some 10, chain := fun _ => [], optNow := 0 })]
    rfl (by decide) (by decide)
  rw [List.all_eq_true]
  intro q hq
  simpa using h q hq

end StratScanner
